import Mathlib

/-!
Shallow embedding of `src/exchangelib/recurrence.py`: recurrence patterns,
recurrence ranges and occurrence exception records, together with their
construction-time `assert` checks and their `to_xml` rendering.

Conventions of the embedding:
* Python `assert` failures at construction time are modelled by `Except
  DomainError`; `DomainError` is the spec's name for the single error kind.
* Python exceptions during rendering (tuple `IndexError`) are modelled by
  `Option`: `none` is an exception escaping `to_xml`.
* Python tuple indexing `t[i]` (which accepts negative indices from the
  end and raises `IndexError` out of range) is `pyIndex`.
* Python `sorted` on a list of ints is `List.insertionSort (· ≤ ·)`.
* The opaque date/time values (`EWSDate`, `EWSDateTime`) and the item
  references the module only forwards are modelled by the `Value` type;
  `isinstance` checks become `Value.isEWSDate` / `Value.isEWSDateTime`.
-/

namespace Recurrence

/-- Scalar values the module forwards to the wire builder: ints, strings,
and the opaque civil-date (`EWSDate`) and zoned-instant (`EWSDateTime`)
types, which the core treats as already-validated opaque values. -/
inductive Value where
  | int (n : Int)
  | str (s : String)
  | date (y m d : Int)
  | datetime (ticks : Int)
deriving DecidableEq

/-- `isinstance(x, EWSDate)` on a `Value`. -/
def Value.isEWSDate : Value → Bool
  | .date _ _ _ => true
  | _ => false

/-- `isinstance(x, EWSDateTime)` on a `Value`. -/
def Value.isEWSDateTime : Value → Bool
  | .datetime _ => true
  | _ => false

/-- `isinstance(x, int)` on a `Value`. -/
def Value.isInt : Value → Bool
  | .int _ => true
  | _ => false

/-- Modelled from the spec: the out-of-scope wire builder (§1) receives a
tag name and ordered (child name, value) pairs; the core only decides
which tag and which children in which order.  `create_element` /
`add_xml_child` (in `util.py`, absent from `src/`) therefore reduce to
building this record. -/
structure XmlElement where
  tag : String
  children : List (String × Value)
deriving DecidableEq

/-- Modelled from the spec: `EWSElement.request_tag` (in `folders.py`,
absent from `src/`) supplies the element's wire tag from `ELEMENT_NAME`;
§6 assigns namespace prefixes to the external wire builder, so the tag is
the element name itself. -/
def request_tag (elementName : String) : String := elementName

/-- The spec's single error kind (§7); in the source each domain check is
a Python `assert`, so the payload is a bare assertion failure. -/
inductive DomainError where
  | assertionFailed
deriving DecidableEq

deriving instance DecidableEq for Except

/-- A Python `assert cond` statement: raises iff the condition fails. -/
def pyAssert (p : Prop) [Decidable p] : Except DomainError Unit :=
  if p then .ok () else .error .assertionFailed

/-- Python tuple indexing `t[i]`: a negative index counts from the end,
and an index out of range raises `IndexError` (here `none`). -/
def pyIndex (l : List String) (i : Int) : Option String :=
  if 0 ≤ i then l.get? i.toNat
  else if 0 ≤ i + l.length then l.get? (i + (l.length : Int)).toNat
  else none

/-- `WEEK_NUMBERS` tuple (DayOfWeekIndex enum). -/
def WEEK_NUMBERS : List String := ["First", "Second", "Third", "Fourth", "Last"]

/-- `MONTHS` tuple (Month enum). -/
def MONTHS : List String :=
  ["January", "February", "March", "April", "May", "June", "July",
   "August", "September", "October", "November", "December"]

/-- `WEEKDAY_NAMES` tuple (Weekday enum). -/
def WEEKDAY_NAMES : List String :=
  ["Monday", "Tuesday", "Wednesday", "Thursday", "Friday", "Saturday", "Sunday"]

/-- `EXTRA_WEEKDAY_OPTIONS` tuple: `DAY`, `WEEK_DAY`, `WEEKEND_DAY`. -/
def EXTRA_WEEKDAY_OPTIONS : List String := ["Day", "Weekday", "WeekendDay"]

/-- `WEEKDAYS = WEEKDAY_NAMES + EXTRA_WEEKDAY_OPTIONS`. -/
def WEEKDAYS : List String := WEEKDAY_NAMES ++ EXTRA_WEEKDAY_OPTIONS

/-- The dynamically-typed `weekdays` argument of the two relative
patterns: either a string (one of the extra weekday options) or a list of
ISO weekday numbers — the source branches on `isinstance(weekdays, str)`. -/
inductive WeekdaysArg where
  | opt (s : String)
  | days (l : List Int)
deriving DecidableEq

/-- Python `len(weekdays)` on the dynamically-typed argument. -/
def WeekdaysArg.len : WeekdaysArg → Nat
  | .opt s => s.length
  | .days l => l.length

/-- `' '.join(WEEKDAYS[i-1] for i in sorted(weekdays))`: sort the weekday
numbers ascending, map each through the `WEEKDAYS` token table, and
space-join; an out-of-range number raises inside the generator. -/
def sortedJoinWeekdays (l : List Int) : Option String := do
  let toks ← (l.insertionSort (· ≤ ·)).mapM (fun i => pyIndex WEEKDAYS (i - 1))
  pure (String.intercalate " " toks)

/-! ## Pattern variants -/

structure AbsoluteYearlyPattern where
  month : Int
  day_of_month : Int
deriving DecidableEq

def AbsoluteYearlyPattern.ELEMENT_NAME : String := "AbsoluteYearlyRecurrence"

/-- `AbsoluteYearlyPattern.__init__`. -/
def mkAbsoluteYearlyPattern (month day_of_month : Int) :
    Except DomainError AbsoluteYearlyPattern := do
  pyAssert (1 ≤ month ∧ month ≤ 12)
  pyAssert (1 ≤ day_of_month ∧ day_of_month ≤ 31)
  pure ⟨month, day_of_month⟩

/-- `AbsoluteYearlyPattern.to_xml`: children `DayOfMonth`, `Month`. -/
def AbsoluteYearlyPattern.to_xml (p : AbsoluteYearlyPattern) : Option XmlElement := do
  let m ← pyIndex MONTHS (p.month - 1)
  pure ⟨request_tag AbsoluteYearlyPattern.ELEMENT_NAME,
    [("t:DayOfMonth", .int p.day_of_month), ("t:Month", .str m)]⟩

structure RelativeYearlyPattern where
  month : Int
  week_number : Int
  weekdays : WeekdaysArg
deriving DecidableEq

def RelativeYearlyPattern.ELEMENT_NAME : String := "RelativeYearlyRecurrence"

/-- `RelativeYearlyPattern.__init__`: asserts `1 <= month <= 12`,
`1 <= week_number <= 53`, and the weekday-selector checks. -/
def mkRelativeYearlyPattern (month week_number : Int) (weekdays : WeekdaysArg) :
    Except DomainError RelativeYearlyPattern := do
  pyAssert (1 ≤ month ∧ month ≤ 12)
  pyAssert (1 ≤ week_number ∧ week_number ≤ 53)
  match weekdays with
  | .opt s => pyAssert (s ∈ EXTRA_WEEKDAY_OPTIONS)
  | .days l => do
      pyAssert (l.length > 0)
      pyAssert (∀ w ∈ l, 1 ≤ w ∧ w ≤ 7)
  pure ⟨month, week_number, weekdays⟩

/-- `RelativeYearlyPattern.to_xml`: children `DaysOfWeek`,
`DayOfWeekIndex` (via `WEEK_NUMBERS[week_number-1]`), `Month`. -/
def RelativeYearlyPattern.to_xml (p : RelativeYearlyPattern) : Option XmlElement := do
  let days_of_week ← match p.weekdays with
    | .opt s => pure s
    | .days l => sortedJoinWeekdays l
  let idx ← pyIndex WEEK_NUMBERS (p.week_number - 1)
  let m ← pyIndex MONTHS (p.month - 1)
  pure ⟨request_tag RelativeYearlyPattern.ELEMENT_NAME,
    [("t:DaysOfWeek", .str days_of_week), ("t:DayOfWeekIndex", .str idx),
     ("t:Month", .str m)]⟩

structure AbsoluteMonthlyPattern where
  interval : Int
  day_of_month : Int
deriving DecidableEq

def AbsoluteMonthlyPattern.ELEMENT_NAME : String := "AbsoluteMonthlyRecurrence"

/-- `AbsoluteMonthlyPattern.__init__`. -/
def mkAbsoluteMonthlyPattern (interval day_of_month : Int) :
    Except DomainError AbsoluteMonthlyPattern := do
  pyAssert (1 ≤ interval ∧ interval ≤ 99)
  pyAssert (1 ≤ day_of_month ∧ day_of_month ≤ 31)
  pure ⟨interval, day_of_month⟩

/-- `AbsoluteMonthlyPattern.to_xml`: children `Interval`, `DayOfMonth`. -/
def AbsoluteMonthlyPattern.to_xml (p : AbsoluteMonthlyPattern) : Option XmlElement :=
  some ⟨request_tag AbsoluteMonthlyPattern.ELEMENT_NAME,
    [("t:Interval", .int p.interval), ("t:DayOfMonth", .int p.day_of_month)]⟩

structure RelativeMonthlyPattern where
  interval : Int
  week_number : Int
  weekdays : WeekdaysArg
deriving DecidableEq

def RelativeMonthlyPattern.ELEMENT_NAME : String := "RelativeMonthlyRecurrence"

/-- `RelativeMonthlyPattern.__init__`: asserts `1 <= week_number <= 53`,
`len(weekdays) > 0`, and the weekday-selector checks — the source has no
assert on `interval` despite its docstring stating the range 1 → 99. -/
def mkRelativeMonthlyPattern (interval week_number : Int) (weekdays : WeekdaysArg) :
    Except DomainError RelativeMonthlyPattern := do
  pyAssert (1 ≤ week_number ∧ week_number ≤ 53)
  pyAssert (weekdays.len > 0)
  match weekdays with
  | .opt s => pyAssert (s ∈ EXTRA_WEEKDAY_OPTIONS)
  | .days l => do
      pyAssert (l.length > 0)
      pyAssert (∀ w ∈ l, 1 ≤ w ∧ w ≤ 7)
  pure ⟨interval, week_number, weekdays⟩

/-- `RelativeMonthlyPattern.to_xml`: children `Interval`, `DaysOfWeek`,
`DayOfWeekIndex`. -/
def RelativeMonthlyPattern.to_xml (p : RelativeMonthlyPattern) : Option XmlElement := do
  let days_of_week ← match p.weekdays with
    | .opt s => pure s
    | .days l => sortedJoinWeekdays l
  let idx ← pyIndex WEEK_NUMBERS (p.week_number - 1)
  pure ⟨request_tag RelativeMonthlyPattern.ELEMENT_NAME,
    [("t:Interval", .int p.interval), ("t:DaysOfWeek", .str days_of_week),
     ("t:DayOfWeekIndex", .str idx)]⟩

structure WeeklyPattern where
  interval : Int
  weekdays : List Int
deriving DecidableEq

def WeeklyPattern.ELEMENT_NAME : String := "WeeklyRecurrence"

/-- `WeeklyPattern.__init__`. -/
def mkWeeklyPattern (interval : Int) (weekdays : List Int) :
    Except DomainError WeeklyPattern := do
  pyAssert (1 ≤ interval ∧ interval ≤ 99)
  pyAssert (weekdays.length > 0)
  pyAssert (∀ w ∈ weekdays, 1 ≤ w ∧ w ≤ 7)
  pure ⟨interval, weekdays⟩

/-- `WeeklyPattern.to_xml`: children `Interval`, `DaysOfWeek` (sorted and
space-joined), `FirstDayOfWeek` (hard-coded `WEEKDAYS[0]`, Monday). -/
def WeeklyPattern.to_xml (p : WeeklyPattern) : Option XmlElement := do
  let days ← sortedJoinWeekdays p.weekdays
  let first ← pyIndex WEEKDAYS 0
  pure ⟨request_tag WeeklyPattern.ELEMENT_NAME,
    [("t:Interval", .int p.interval), ("t:DaysOfWeek", .str days),
     ("t:FirstDayOfWeek", .str first)]⟩

structure DailyPattern where
  interval : Int
deriving DecidableEq

def DailyPattern.ELEMENT_NAME : String := "DailyRecurrence"

/-- `DailyPattern.__init__`. -/
def mkDailyPattern (interval : Int) : Except DomainError DailyPattern := do
  pyAssert (1 ≤ interval ∧ interval ≤ 999)
  pure ⟨interval⟩

/-- `DailyPattern.to_xml`: single child `Interval`. -/
def DailyPattern.to_xml (p : DailyPattern) : Option XmlElement :=
  some ⟨request_tag DailyPattern.ELEMENT_NAME, [("t:Interval", .int p.interval)]⟩

/-! ## Range variants -/

structure NoEndPattern where
  start : Value
deriving DecidableEq

def NoEndPattern.ELEMENT_NAME : String := "NoEndRecurrence"

/-- `NoEndPattern.__init__`: asserts `isinstance(start, EWSDate)`. -/
def mkNoEndPattern (start : Value) : Except DomainError NoEndPattern := do
  pyAssert (start.isEWSDate = true)
  pure ⟨start⟩

/-- `NoEndPattern.to_xml`: single child `StartDate`. -/
def NoEndPattern.to_xml (r : NoEndPattern) : Option XmlElement :=
  some ⟨request_tag NoEndPattern.ELEMENT_NAME, [("t:StartDate", r.start)]⟩

structure EndDatePattern where
  start : Value
  end_date : Value
deriving DecidableEq

/-- `EndDatePattern.ELEMENT_NAME` as written in the source: the string
`'NoEndRecurrence'`, identical to `NoEndPattern`'s element name. -/
def EndDatePattern.ELEMENT_NAME : String := "NoEndRecurrence"

/-- `EndDatePattern.__init__`: asserts both arguments are `EWSDate`. -/
def mkEndDatePattern (start end_date : Value) : Except DomainError EndDatePattern := do
  pyAssert (start.isEWSDate = true)
  pyAssert (end_date.isEWSDate = true)
  pure ⟨start, end_date⟩

/-- `EndDatePattern.to_xml`: children `StartDate`, `EndDate`. -/
def EndDatePattern.to_xml (r : EndDatePattern) : Option XmlElement :=
  some ⟨request_tag EndDatePattern.ELEMENT_NAME,
    [("t:StartDate", r.start), ("t:EndDate", r.end_date)]⟩

structure NumberedPattern where
  start : Value
  number : Value
deriving DecidableEq

def NumberedPattern.ELEMENT_NAME : String := "NumberedRecurrence"

/-- `NumberedPattern.__init__`: asserts `isinstance(start, EWSDate)` and
`isinstance(number, int)`. -/
def mkNumberedPattern (start number : Value) : Except DomainError NumberedPattern := do
  pyAssert (start.isEWSDate = true)
  pyAssert (number.isInt = true)
  pure ⟨start, number⟩

/-- `NumberedPattern.to_xml`: children `StartDate`, `NumberOfOccurrences`. -/
def NumberedPattern.to_xml (r : NumberedPattern) : Option XmlElement :=
  some ⟨request_tag NumberedPattern.ELEMENT_NAME,
    [("t:StartDate", r.start), ("t:NumberOfOccurrences", r.number)]⟩

/-! ## Occurrence exception records -/

structure Occurrence where
  item : Value
  start : Value
  end_time : Value
  original_start : Value
deriving DecidableEq

def Occurrence.ELEMENT_NAME : String := "Occurrence"

/-- `Occurrence.__init__`: asserts the three instants are `EWSDateTime`;
`item` (the item id / changekey reference) is stored unchecked. -/
def mkOccurrence (item start end_time original_start : Value) :
    Except DomainError Occurrence := do
  pyAssert (start.isEWSDateTime = true)
  pyAssert (end_time.isEWSDateTime = true)
  pyAssert (original_start.isEWSDateTime = true)
  pure ⟨item, start, end_time, original_start⟩

/-- `Occurrence.to_xml`: children `Start`, `End`, `OriginalStart`; the
`item` field is not rendered. -/
def Occurrence.to_xml (o : Occurrence) : Option XmlElement :=
  some ⟨request_tag Occurrence.ELEMENT_NAME,
    [("t:Start", o.start), ("t:End", o.end_time), ("t:OriginalStart", o.original_start)]⟩

structure DeletedOccurrence where
  start : Value
deriving DecidableEq

def DeletedOccurrence.ELEMENT_NAME : String := "DeletedOccurrence"

/-- `DeletedOccurrence.__init__`: `self.start = start`, with no assert of
any kind on the argument. -/
def mkDeletedOccurrence (start : Value) : Except DomainError DeletedOccurrence :=
  pure ⟨start⟩

/-- `DeletedOccurrence.to_xml`: single child `Start`. -/
def DeletedOccurrence.to_xml (d : DeletedOccurrence) : Option XmlElement :=
  some ⟨request_tag DeletedOccurrence.ELEMENT_NAME, [("t:Start", d.start)]⟩

/-- The disjoint union of every renderable value of the module, used to
state properties over all variants at once. -/
inductive RecurrenceValue where
  | absoluteYearly (p : AbsoluteYearlyPattern)
  | relativeYearly (p : RelativeYearlyPattern)
  | absoluteMonthly (p : AbsoluteMonthlyPattern)
  | relativeMonthly (p : RelativeMonthlyPattern)
  | weekly (p : WeeklyPattern)
  | daily (p : DailyPattern)
  | noEnd (r : NoEndPattern)
  | endDate (r : EndDatePattern)
  | numbered (r : NumberedPattern)
  | occurrence (o : Occurrence)
  | deletedOccurrence (d : DeletedOccurrence)
deriving DecidableEq

/-- Dispatch to the variant's own `to_xml`. -/
def RecurrenceValue.render : RecurrenceValue → Option XmlElement
  | .absoluteYearly p => p.to_xml
  | .relativeYearly p => p.to_xml
  | .absoluteMonthly p => p.to_xml
  | .relativeMonthly p => p.to_xml
  | .weekly p => p.to_xml
  | .daily p => p.to_xml
  | .noEnd r => r.to_xml
  | .endDate r => r.to_xml
  | .numbered r => r.to_xml
  | .occurrence o => o.to_xml
  | .deletedOccurrence d => d.to_xml

end Recurrence

namespace Recurrence

/-! ## Claims -/

/-- C1: the claim says an end-dated range renders with the wire element
name `EndDateRecurrence`, distinct from the `NoEndRecurrence` name of the
unbounded variant.  The source instead sets `EndDatePattern.ELEMENT_NAME`
to the very same string `'NoEndRecurrence'` as `NoEndPattern`, so both
variants render under the same tag. -/
theorem endDatePattern_element_name_is_noEnd :
    EndDatePattern.ELEMENT_NAME = NoEndPattern.ELEMENT_NAME ∧
    EndDatePattern.to_xml ⟨.date 2024 1 1, .date 2024 12 31⟩ =
      some ⟨"NoEndRecurrence",
        [("t:StartDate", .date 2024 1 1), ("t:EndDate", .date 2024 12 31)]⟩ ∧
    NoEndPattern.to_xml ⟨.date 2024 1 1⟩ =
      some ⟨"NoEndRecurrence", [("t:StartDate", .date 2024 1 1)]⟩ := by
  exact ⟨rfl, by decide, by decide⟩

/-- C2: the claim says a relative pattern that passed its construction
checks never fails during render.  The construction check admits
`week_number` up to 53, but `WEEK_NUMBERS` has only five tokens, so for
`week_number = 6` construction succeeds and rendering raises an
`IndexError` (modelled as `none`) — for both relative variants. -/
theorem relativeYearly_week_number_six_render_fails :
    mkRelativeYearlyPattern 1 6 (.days [1]) = .ok ⟨1, 6, .days [1]⟩ ∧
    RelativeYearlyPattern.to_xml ⟨1, 6, .days [1]⟩ = none ∧
    mkRelativeMonthlyPattern 1 6 (.days [1]) = .ok ⟨1, 6, .days [1]⟩ ∧
    RelativeMonthlyPattern.to_xml ⟨1, 6, .days [1]⟩ = none := by
  decide

/-- C3: the claim says constructing the RelativeMonthly variant with
`interval` outside 1–99 fails with a `DomainError`.  The source's
`RelativeMonthlyPattern.__init__` has no assert on `interval` at all, so
both `interval = 100` and `interval = 0` are accepted without error. -/
theorem relativeMonthly_interval_unchecked :
    mkRelativeMonthlyPattern 100 1 (.days [1]) = .ok ⟨100, 1, .days [1]⟩ ∧
    mkRelativeMonthlyPattern 0 1 (.days [1]) = .ok ⟨0, 1, .days [1]⟩ := by
  decide

/-- C4: rendering `Weekly{interval=2, weekdays={Wednesday(3), Monday(1)}}`
yields, for every construction order of the two-element weekday set,
children `Interval=2`, `DaysOfWeek="Monday Wednesday"` (sorted ascending,
space-joined) and `FirstDayOfWeek="Monday"`, in that order. -/
theorem weekly_render_sorted_of_perm (l : List Int) (h : l.Perm [1, 3]) :
    WeeklyPattern.to_xml ⟨2, l⟩ =
      some ⟨"WeeklyRecurrence",
        [("t:Interval", .int 2), ("t:DaysOfWeek", .str "Monday Wednesday"),
         ("t:FirstDayOfWeek", .str "Monday")]⟩ := by
  have hs : l.insertionSort (· ≤ ·) = [1, 3] :=
    List.eq_of_perm_of_sorted ((List.perm_insertionSort _ l).trans h)
      (List.sorted_insertionSort _ l) (by decide)
  simp only [WeeklyPattern.to_xml, sortedJoinWeekdays, hs]
  rfl

/-- C4 witness: the theorem applied to the construction order `[3, 1]`. -/
theorem weekly_render_sorted_of_perm_witness :
    ([3, 1] : List Int).Perm [1, 3] ∧
    WeeklyPattern.to_xml ⟨2, [3, 1]⟩ =
      some ⟨"WeeklyRecurrence",
        [("t:Interval", .int 2), ("t:DaysOfWeek", .str "Monday Wednesday"),
         ("t:FirstDayOfWeek", .str "Monday")]⟩ :=
  ⟨by decide, weekly_render_sorted_of_perm [3, 1] (by decide)⟩

/-- C5: rendering `RelativeYearly{month=3, week_ordinal=Last (week_number
= 5), weekday_selector=WeekendDay}` yields exactly the children
`DaysOfWeek="WeekendDay"`, `DayOfWeekIndex="Last"`, `Month="March"`, in
that order. -/
theorem relativeYearly_render_weekendDay_last_march :
    mkRelativeYearlyPattern 3 5 (.opt "WeekendDay") = .ok ⟨3, 5, .opt "WeekendDay"⟩ ∧
    RelativeYearlyPattern.to_xml ⟨3, 5, .opt "WeekendDay"⟩ =
      some ⟨"RelativeYearlyRecurrence",
        [("t:DaysOfWeek", .str "WeekendDay"), ("t:DayOfWeekIndex", .str "Last"),
         ("t:Month", .str "March")]⟩ := by
  decide

/-- C6: rendering `AbsoluteMonthly{interval=1, day_of_month=31}` yields
children `Interval=1` and `DayOfMonth=31` unchanged; the core performs no
clamping of `day_of_month`. -/
theorem absoluteMonthly_render_day31_no_clamp :
    mkAbsoluteMonthlyPattern 1 31 = .ok ⟨1, 31⟩ ∧
    AbsoluteMonthlyPattern.to_xml ⟨1, 31⟩ =
      some ⟨"AbsoluteMonthlyRecurrence",
        [("t:Interval", .int 1), ("t:DayOfMonth", .int 31)]⟩ := by
  decide

/-- C7: rendering any Pattern, Range or occurrence value twice yields
identical output — in the embedding `RecurrenceValue.render` is a pure
function of the value's fields, with no hidden state. -/
theorem render_deterministic (v : RecurrenceValue) : v.render = v.render := rfl

/-- C8: two `Occurrence` values that agree on `start`, `end` and
`original_start` but differ in the opaque `item` reference render
identically: the children are exactly `Start`, `End`, `OriginalStart`,
and `item` does not appear in (or influence) the output. -/
theorem occurrence_render_ignores_item (item₁ item₂ s e o : Value) :
    Occurrence.to_xml ⟨item₁, s, e, o⟩ = Occurrence.to_xml ⟨item₂, s, e, o⟩ ∧
    Occurrence.to_xml ⟨item₁, s, e, o⟩ =
      some ⟨"Occurrence",
        [("t:Start", s), ("t:End", e), ("t:OriginalStart", o)]⟩ :=
  ⟨rfl, rfl⟩

/-- C9: constructing a `DeletedOccurrence` never fails for any argument
value — the source's constructor performs no type or domain check, so
non-date values are accepted — and rendering emits that value verbatim as
the single `Start` child. -/
theorem deletedOccurrence_construction_total (v : Value) :
    mkDeletedOccurrence v = .ok ⟨v⟩ ∧
    DeletedOccurrence.to_xml ⟨v⟩ =
      some ⟨"DeletedOccurrence", [("t:Start", v)]⟩ :=
  ⟨rfl, rfl⟩

/-- C10: constructing a Weekly pattern with the duplicate-bearing weekday
list `[1, 1, 3]` succeeds, and rendering emits the duplicated token once
per list entry: `DaysOfWeek = "Monday Monday Wednesday"` — the code does
not deduplicate the weekday collection. -/
theorem weekly_duplicate_weekdays_not_dedup :
    mkWeeklyPattern 2 [1, 1, 3] = .ok ⟨2, [1, 1, 3]⟩ ∧
    WeeklyPattern.to_xml ⟨2, [1, 1, 3]⟩ =
      some ⟨"WeeklyRecurrence",
        [("t:Interval", .int 2), ("t:DaysOfWeek", .str "Monday Monday Wednesday"),
         ("t:FirstDayOfWeek", .str "Monday")]⟩ := by
  decide

end Recurrence
